import Mathlib

/-!
Verification development for the BullEx WebSocket fan-out proxy
(`index.js` and its sibling revisions).  The JavaScript source is shallowly
embedded: numeric upstream values are modelled as rationals (`ℚ`), JavaScript
`Math.round` as `jsRound`, absent / null / non-numeric upstream values by an
explicit `UpAmount` datatype, and the stateful pieces (rate-limit trackers,
coalescing timers, reconnect counters) as explicit state-passing functions.
Each definition mirrors one function or branch of the source; the theorems at
the end of the file settle the specification claims against these embeddings.
-/

namespace BullexProxy

/-! ## JavaScript numeric helpers -/

/-- JavaScript `Math.round`: round half toward positive infinity. -/
def jsRound (q : ℚ) : ℤ := ⌊q + 1/2⌋

/-- An upstream amount value as seen by `toCentsMaybe` (src/index.js:118-128).
`missing` is JavaScript `undefined` (an absent field), `null` the JSON null,
`nan` any value whose `Number(...)` coercion is `NaN` (a non-numeric string,
an object, ...), and `num q` a value coercing to the finite number `q`. -/
inductive UpAmount where
  | missing
  | null
  | nan
  | num (q : ℚ)
  deriving DecidableEq, Repr

/-- Embedding of `toCentsMaybe` from src/index.js lines 118-128:

* `value == null` (null or undefined) returns `null`;
* `Number.isNaN(n)` returns `null`;
* `n > 100000` returns `Math.round(n)` ("already cents-like");
* a non-integer returns `Math.round(n * 100)`;
* otherwise (a small integer) returns `n * 100`. -/
def toCentsMaybe : UpAmount → Option ℤ
  | .missing => none
  | .null => none
  | .nan => none
  | .num q =>
      if (100000 : ℚ) < q then some (jsRound q)
      else if q.den ≠ 1 then some (jsRound (q * 100))
      else some (q.num * 100)

/-- Embedding of `toCentsMaybe` from src/unnamed/part_002 lines 416-424, the
variant used by the `open-position` handler: an integer above 1000 is kept as
already being cents, everything else numeric is `Math.round(n * 100)`. -/
def toCentsMaybeV2 : UpAmount → Option ℤ
  | .missing => none
  | .null => none
  | .nan => none
  | .num q =>
      if q.den = 1 ∧ (1000 : ℚ) < q then some q.num
      else some (jsRound (q * 100))

/-! ## Balance normalization branch (src/index.js lines 206-244)

The `balances` / `balance-changed` branch of the upstream message handler
extracts an amount, converts it with `toCentsMaybe`, and iff the result is
non-null emits the three downstream events built at lines 240-242. -/

/-- The `current_balance` object carried by the downstream balance events.
`timestamp` is `none` for the `balance` and `balance-changed` events and
`some now` for `current-balance` (which adds `timestamp: Date.now()`). -/
structure CurrentBalance where
  id : Option String
  amount : ℤ
  currency : String
  timestamp : Option ℕ
  deriving DecidableEq, Repr

/-- A downstream balance event payload: an optional top-level `name` field
(only the `balance-changed` emission carries `name: "balance-changed"`) and
the `msg.current_balance` object. -/
structure BalanceEvent where
  name : Option String
  current_balance : CurrentBalance
  deriving DecidableEq, Repr

/-- Payload of `clientSocket.emit("balance", ...)` (src/index.js:240). -/
def mkBalanceEvt (ubid : Option String) (amt : ℤ) (cur : String) : BalanceEvent :=
  ⟨none, ⟨ubid, amt, cur, none⟩⟩

/-- Payload of `clientSocket.emit("balance-changed", ...)` (src/index.js:241);
it additionally carries the top-level field `name: "balance-changed"`. -/
def mkBalanceChangedEvt (ubid : Option String) (amt : ℤ) (cur : String) : BalanceEvent :=
  ⟨some "balance-changed", ⟨ubid, amt, cur, none⟩⟩

/-- Payload of `clientSocket.emit("current-balance", ...)` (src/index.js:242);
it additionally carries `timestamp: Date.now()` inside `current_balance`. -/
def mkCurrentBalanceEvt (nowMs : ℕ) (ubid : Option String) (amt : ℤ) (cur : String) :
    BalanceEvent :=
  ⟨none, ⟨ubid, amt, cur, some nowMs⟩⟩

/-- The emission part of the balances branch (src/index.js lines 231-244):
given the extracted raw amount, the balance id and currency picked from the
frame, and the current wall clock, it returns the list of
`(event name, payload)` pairs emitted downstream.  When `toCentsMaybe`
returns `null` the branch emits nothing at all (no error either). -/
def balancesBranch (amount : UpAmount) (ubid : Option String) (cur : String)
    (nowMs : ℕ) : List (String × BalanceEvent) :=
  match toCentsMaybe amount with
  | none => []
  | some c =>
      [("balance", mkBalanceEvt ubid c cur),
       ("balance-changed", mkBalanceChangedEvt ubid c cur),
       ("current-balance", mkCurrentBalanceEvt nowMs ubid c cur)]

/-! ## Rate limiting (src/index.js lines 63-92)

`RATE_LIMITS` maps an upstream event class to its window configuration;
`EventAggregator.isWithinLimit` keeps a per-class tracker
`{ count, resetTime }` which is consulted (and lazily reset) on every
admission request. -/

/-- One entry of the `RATE_LIMITS` table: window length in milliseconds and
maximum number of admitted events per window. -/
structure RateCfg where
  interval : ℕ
  maxEvents : ℕ
  deriving DecidableEq, Repr

/-- The per-class rate-limit tracker `{ count, resetTime }` of
`EventAggregator` (src/index.js:75). A fresh tracker is `{ 0, 0 }`. -/
structure Tracker where
  count : ℕ
  resetTime : ℕ
  deriving DecidableEq, Repr

/-- `RATE_LIMITS["candles-generated"]` in src/index.js:64. -/
def rateLimitCandles : RateCfg := ⟨400, 4⟩

/-- `RATE_LIMITS["positions-state"]` in src/index.js:65. -/
def rateLimitPositions : RateCfg := ⟨1000, 6⟩

/-- `RATE_LIMITS["balance-changed"]` in src/index.js:66. -/
def rateLimitBalance : RateCfg := ⟨1000, 6⟩

/-- Embedding of `EventAggregator.isWithinLimit` (src/index.js lines 78-92)
for a rate-limited class with configuration `cfg`, called at wall clock
`now` on tracker `t`.  If `now > t.resetTime` the tracker is reset
(`count := 0`, `resetTime := now + cfg.interval`) before the admission
decision; the call admits (returns `true` and increments `count`) iff the
post-reset count is below `cfg.maxEvents`. -/
def isWithinLimit (cfg : RateCfg) (now : ℕ) (t : Tracker) : Bool × Tracker :=
  let t1 := if t.resetTime < now then Tracker.mk 0 (now + cfg.interval) else t
  if t1.count < cfg.maxEvents then (true, ⟨t1.count + 1, t1.resetTime⟩) else (false, t1)

/-- Number of admissions granted by `isWithinLimit` over a sequence of call
instants, threading the tracker state. -/
def admittedCount (cfg : RateCfg) (t : Tracker) : List ℕ → ℕ
  | [] => 0
  | now :: rest =>
      let r := isWithinLimit cfg now t
      (if r.1 then 1 else 0) + admittedCount cfg r.2 rest

/-! ## Coalescing flush timer (src/index.js lines 100-108)

`EventAggregator.send` cancels any pending `setTimeout` for the class and
schedules a new one, 100 ms ahead, that emits the payload passed to this
very call.  Thus a pending emission survives only if no further `send` for
the same class happens before its deadline.  `emissions` computes, for a
time-ordered list of `send` calls `(time, payload)` of one class, the list
of downstream emissions `(time, payload)` this timer discipline produces. -/

/-- The `setTimeout` delay used by `EventAggregator.send` (src/index.js:107). -/
def FLUSH_DELAY_MS : ℕ := 100

/-- Downstream emissions produced by the per-class coalescing timer for a
time-ordered list of `send` calls: each call schedules `(t + delay, p)`,
and a scheduled emission is cancelled iff the next call arrives before its
deadline (`clearTimeout` in src/index.js:101). -/
def emissions (delay : ℕ) : List (ℕ × α) → List (ℕ × α)
  | [] => []
  | [(t, p)] => [(t + delay, p)]
  | (t, p) :: (t2, p2) :: rest =>
      if t2 < t + delay then emissions delay ((t2, p2) :: rest)
      else (t + delay, p) :: emissions delay ((t2, p2) :: rest)

/-- Last element of `a :: l`. -/
def lastD (a : α) : List α → α
  | [] => a
  | b :: l => lastD b l

/-! ## Asset registry and the `subscribe-active` handler
(src/index.js lines 38-60 and 294-330) -/

/-- `ACTIVE_MAP` of src/index.js lines 38-60: textual asset name to numeric
upstream `active_id`. -/
def ACTIVE_MAP : List (String × ℕ) :=
  [("EURUSD-OTC", 76), ("GBPUSD-OTC", 77), ("USDJPY-OTC", 78),
   ("AUDUSD-OTC", 79), ("EURJPY-OTC", 80), ("EURGBP-OTC", 81),
   ("USDCHF-OTC", 82), ("USDCAD-OTC", 83), ("EURCAD-OTC", 84),
   ("GBPJPY-OTC", 85), ("GBPCHF-OTC", 86), ("AUDJPY-OTC", 87),
   ("AUDCAD-OTC", 88), ("NZDUSD-OTC", 89),
   ("BTCUSD-BLZ", 201), ("ETHUSD-BLZ", 202), ("LTCUSD-BLZ", 203),
   ("EURUSD-BLZ", 204), ("GBPUSD-BLZ", 205)]

/-- A frame the `subscribe-active` handler may send on the upstream socket. -/
inductive UpFrame where
  | unsubscribeCandles (active_id : ℕ)
  | subscribeCandles (active_id : ℕ) (size : ℕ) (timeframe : String)
  deriving DecidableEq, Repr

/-- A downstream emission of the `subscribe-active` handler. -/
inductive DownEvent where
  | errorEvt (message : String)
  | subscribedActive (name : String) (id : ℕ)
  deriving DecidableEq, Repr

/-- Embedding of `clientSocket.on("subscribe-active", ...)` from
src/index.js lines 294-330, returning the pair
(upstream frames sent, downstream events emitted).

* a missing or empty (JavaScript-falsy) `name` yields the
  "subscribe-active requires name" error;
* a name absent from `ACTIVE_MAP` yields `Ativo desconhecido: <name>` and
  nothing is sent upstream;
* otherwise the handler unsubscribes the prior active (if truthy and
  different), subscribes the new id with `size = 1`, and replies
  `subscribed-active [{ name, id }]`. -/
def subscribeActive (name : Option String) (currentActive : Option ℕ)
    (timeframe : String) : List UpFrame × List DownEvent :=
  match name with
  | none => ([], [.errorEvt "subscribe-active requires name"])
  | some nm =>
      if nm = "" then ([], [.errorEvt "subscribe-active requires name"])
      else
        match ACTIVE_MAP.lookup nm with
        | none => ([], [.errorEvt ("Ativo desconhecido: " ++ nm)])
        | some id =>
            let unsub : List UpFrame :=
              match currentActive with
              | some p => if p ≠ 0 ∧ p ≠ id then [.unsubscribeCandles p] else []
              | none => []
            (unsub ++ [.subscribeCandles id 1 timeframe],
             [.subscribedActive nm id])

/-! ## The `/open` order endpoint (src/index.js lines 399-446) -/

/-- JavaScript `a || b` on optional numeric ids: the left value is taken iff
it is truthy (present and non-zero). -/
def jsOrZ : Option ℤ → Option ℤ → Option ℤ
  | some a, b => if a = 0 then b else some a
  | none, b => b

/-- The `timeframe` if/else chain of src/index.js lines 414-420, returning
`(option_type_id, expired)`.  `Math.ceil(now / 60) * 60` on natural `now`
is `((now + 59) / 60) * 60` with floor division. -/
def timeframeParams (timeframe : String) (now customSeconds : ℕ) : ℕ × ℕ :=
  if timeframe = "M1" then (3, ((now + 59) / 60) * 60)
  else if timeframe = "M5" then (12, ((now + 299) / 300) * 300)
  else if timeframe = "M15" then (13, ((now + 899) / 900) * 900)
  else if timeframe = "custom" then (3, now + customSeconds)
  else (3, now + customSeconds)

/-- The `body` of the `binary-options.open-option` payload built by `/open`
(src/index.js lines 422-436), together with the optional `request_id` field
of the surrounding frame — the `/open` path never sets one, so faithfully it
is `none` here. -/
structure OpenBody where
  user_balance_id : String
  active_id : Option ℤ
  option_type_id : ℕ
  direction : String
  expired : ℕ
  price : ℤ
  value : ℤ
  profit_percent : ℕ
  refund_value : ℕ
  request_id : Option String
  deriving DecidableEq, Repr

/-- The inputs of one `/open` request: connection-registry state on the left
(`connFound`, `wsOpen`, cached `user_balance_id` and `currentActive`) and the
JSON request body fields on the right. -/
structure OpenReq where
  connFound : Bool
  wsOpen : Bool
  user_balance_id : Option String
  currentActive : Option ℤ
  direction : String
  stake : ℚ
  activeId : Option ℤ
  timeframe : String
  customSeconds : ℕ
  now : ℕ
  deriving DecidableEq, Repr

/-- The payload constructed at src/index.js lines 422-436 for a request `r`
whose `user_balance_id` check already passed with value `u`:
`active_id = activeId || currentActive || null`, timeframe-dependent
`option_type_id`/`expired`, `price = value = Math.round(stake * 100)`,
`profit_percent = 88`, `refund_value = 0`, and no `request_id`. -/
def openBuild (u : String) (r : OpenReq) : OpenBody :=
  let tp := timeframeParams r.timeframe r.now r.customSeconds
  { user_balance_id := u
    active_id := jsOrZ r.activeId (jsOrZ r.currentActive none)
    option_type_id := tp.1
    direction := r.direction
    expired := tp.2
    price := jsRound (r.stake * 100)
    value := jsRound (r.stake * 100)
    profit_percent := 88
    refund_value := 0
    request_id := none }

/-- Embedding of the `/open` request handler (src/index.js lines 399-446):
it fails when no open upstream connection is found, when the cached
`user_balance_id` is absent, or when the built payload has a falsy
`active_id`; otherwise the payload is transmitted upstream (`.ok`).
Neither `direction` nor `stake` is inspected. -/
def openHandler (r : OpenReq) : Except String OpenBody :=
  if ¬ (r.connFound = true ∧ r.wsOpen = true) then
    .error "Conexão Bullex não encontrada/aberta"
  else
    match r.user_balance_id with
    | none => .error "user_balance_id ausente (aguarde balances)"
    | some u =>
        let body := openBuild u r
        match body.active_id with
        | none => .error "active_id ausente (especifique activeId ou subscribe-active antes)"
        | some _ => .ok body

/-! ## Reconnect handling (src/index.js lines 268-285)

`connectToBullEx` declares `let reconnectAttempts = 0` as a local of each
invocation; the `close` handler schedules one reconnect (a fresh call of
`connectToBullEx`, 4000 ms later) whenever `reconnectAttempts < 6`.  Since
every reconnect re-enters `connectToBullEx`, the counter seen by the *next*
close event is again the fresh local `0`. -/

/-- The reconnect delay used at src/index.js:283. -/
def RECONNECT_DELAY_MS : ℕ := 4000

/-- The decision of the `close` handler (src/index.js lines 277-284) given
the invocation-local attempt counter: whether a reconnect is scheduled, and
the counter after the handler ran. -/
def closeHandler (attempts : ℕ) : Bool × ℕ :=
  if attempts < 6 then (true, attempts + 1) else (false, attempts)

/-- Number of reconnects scheduled over `n` consecutive upstream closures,
given that each scheduled reconnect re-enters `connectToBullEx` and hence the
next closure is handled with a fresh `reconnectAttempts = 0`. -/
def reconnectsAfterCloses : ℕ → ℕ
  | 0 => 0
  | n + 1 => (if (closeHandler 0).1 then 1 else 0) + reconnectsAfterCloses n

/-! ## Polymorphic subscribe payload resolution (src/index.js lines 498-524) -/

/-- A JavaScript primitive field value: a string or a number. -/
inductive JVal where
  | s (v : String)
  | n (v : ℤ)
  deriving DecidableEq, Repr

/-- The fields of an object payload that `resolveActivePayload` inspects:
`name`, `active`, `id`, the nested `msg.name`, and `payload`. An absent
field is `none`; `msgName` is `none` when `msg` is absent or has no `name`. -/
structure JObj where
  name : Option JVal
  active : Option JVal
  id : Option JVal
  msgName : Option JVal
  payload : Option JVal
  deriving DecidableEq, Repr

/-- Input of `resolveActivePayload`: null/undefined, a bare string, a bare
number, or an object. -/
inductive JsInput where
  | null
  | s (v : String)
  | n (v : ℤ)
  | obj (o : JObj)
  deriving DecidableEq, Repr

/-- Result of `resolveActivePayload`: `{ type: "name" | "id", value }`. -/
inductive Resolved where
  | name (v : String)
  | id (v : ℤ)
  deriving DecidableEq, Repr

/-- JavaScript truthiness of a primitive field value: a string is truthy iff
non-empty, a number iff non-zero. -/
def truthy : JVal → Bool
  | .s v => v ≠ ""
  | .n v => v ≠ 0

/-- The final `payload.payload` check of `resolveActivePayload`
(src/index.js:521): a truthy string `payload` field. -/
def resolveActiveObjPayload (o : JObj) : Option Resolved :=
  match o.payload with
  | some (.s v) => if v ≠ "" then some (.name v) else none
  | _ => none

/-- The `payload.msg && payload.msg.name` check of `resolveActivePayload`
(src/index.js:519) followed by the `payload` check. -/
def resolveActiveObjMsg (o : JObj) : Option Resolved :=
  match o.msgName with
  | some (.s v) => if v ≠ "" then some (.name v) else resolveActiveObjPayload o
  | _ => resolveActiveObjPayload o

/-- The `payload.id` check of `resolveActivePayload` (src/index.js:517)
followed by the later checks. -/
def resolveActiveObjId (o : JObj) : Option Resolved :=
  match o.id with
  | some (.n k) => if k ≠ 0 then some (.id k) else resolveActiveObjMsg o
  | _ => resolveActiveObjMsg o

/-- The `payload.active` check of `resolveActivePayload` (src/index.js:516)
followed by the later checks. -/
def resolveActiveObjActive (o : JObj) : Option Resolved :=
  match o.active with
  | some (.n k) => if k ≠ 0 then some (.id k) else resolveActiveObjId o
  | _ => resolveActiveObjId o

/-- Embedding of `resolveActivePayload` (src/index.js lines 498-524).  The
object branch checks, in source order: a truthy string `name`, a truthy
number `active`, a truthy number `id`, a truthy string `msg.name`, a truthy
string `payload`; the first match wins. -/
def resolveActivePayload : JsInput → Option Resolved
  | .null => none
  | .s v => some (.name v)
  | .n v => some (.id v)
  | .obj o =>
      match o.name with
      | some (.s v) => if v ≠ "" then some (.name v) else resolveActiveObjActive o
      | _ => resolveActiveObjActive o

/-! ## Concrete example inputs used by the theorems below -/

/-- Whether an `Except` result is a success. -/
def isOkB : Except String OpenBody → Bool
  | .ok _ => true
  | .error _ => false

/-- An `/open` request with an open connection, a cached balance id and a
subscribed active, but direction `"up"` and stake `0`. -/
def badOrderReq : OpenReq :=
  ⟨true, true, some "b1", some 76, "up", 0, none, "M1", 5, 1700000017⟩

/-- An M1 call order for stake 1.5 at Unix time 1700000017 on active 76. -/
def m1Req : OpenReq :=
  ⟨true, true, some "b1", none, "call", 3/2, some 76, "M1", 5, 1700000017⟩

/-- An object payload carrying the (falsy) string name `""` together with a
nested `msg.name`. -/
def envelopeEmptyName : JObj :=
  ⟨some (.s ""), none, none, some (.s "EURUSD-OTC"), none⟩

/-- A full command envelope `{ name: "subscribe-active",
msg: { name: "EURUSD-OTC" } }`. -/
def envelopeFull : JObj :=
  ⟨some (.s "subscribe-active"), none, none, some (.s "EURUSD-OTC"), none⟩

end BullexProxy

namespace BullexProxy

/-! ## Helper lemmas about `jsRound` -/

theorem jsRound_intCast (n : ℤ) : jsRound (n : ℚ) = n := by
  unfold jsRound
  rw [Int.floor_eq_iff]
  constructor
  · linarith
  · linarith

theorem jsRound_of_den_one (q : ℚ) (h : q.den = 1) : jsRound q = q.num := by
  have hq : (q.num : ℚ) = q := by
    rw [← Rat.den_eq_one_iff]
    exact h
  calc jsRound q = jsRound ((q.num : ℤ) : ℚ) := by rw [hq]
    _ = q.num := jsRound_intCast q.num

end BullexProxy

namespace BullexProxy

/-! ## Helper lemmas for the rate limiter and the coalescing timer -/

theorem admittedCount_no_reset (cfg : RateCfg) :
    ∀ (times : List ℕ) (t : Tracker), t.count ≤ cfg.maxEvents →
      (∀ x ∈ times, x ≤ t.resetTime) →
      admittedCount cfg t times + t.count ≤ cfg.maxEvents := by
  intro times
  induction times with
  | nil =>
      intro t hmax _
      simpa [admittedCount] using hmax
  | cons now rest ih =>
      intro t hmax htimes
      have hnow : now ≤ t.resetTime := htimes now (List.mem_cons_self _ _)
      have hreset : ¬ t.resetTime < now := by omega
      have hrest : ∀ x ∈ rest, x ≤ t.resetTime := by
        intro x hx
        exact htimes x (List.mem_cons_of_mem _ hx)
      have hunfold : admittedCount cfg t (now :: rest) =
          (if (isWithinLimit cfg now t).1 then 1 else 0) +
            admittedCount cfg (isWithinLimit cfg now t).2 rest := rfl
      by_cases hc : t.count < cfg.maxEvents
      · have hstep : isWithinLimit cfg now t =
            (true, ⟨t.count + 1, t.resetTime⟩) := by
          simp [isWithinLimit, hreset, hc]
        have hih : admittedCount cfg ⟨t.count + 1, t.resetTime⟩ rest +
            (t.count + 1) ≤ cfg.maxEvents :=
          ih ⟨t.count + 1, t.resetTime⟩ (show t.count + 1 ≤ cfg.maxEvents by omega) hrest
        have hadm : admittedCount cfg t (now :: rest) =
            1 + admittedCount cfg ⟨t.count + 1, t.resetTime⟩ rest := by
          rw [hunfold, hstep]
          simp
        rw [hadm]
        omega
      · have hstep : isWithinLimit cfg now t = (false, t) := by
          simp [isWithinLimit, hreset, hc]
        have hih := ih t hmax hrest
        have hadm : admittedCount cfg t (now :: rest) = admittedCount cfg t rest := by
          rw [hunfold, hstep]
          simp
        rw [hadm]
        omega

theorem fst_le_lastD {α : Type} :
    ∀ (l : List (ℕ × α)) (a : ℕ × α),
      List.Chain' (fun x y => x.1 ≤ y.1) (a :: l) → a.1 ≤ (lastD a l).1 := by
  intro l
  induction l with
  | nil => intro a _; simp [lastD]
  | cons b l ih =>
      intro a hchain
      rw [List.chain'_cons] at hchain
      have hb := ih b hchain.2
      simp only [lastD]
      omega

end BullexProxy

namespace BullexProxy

/-! ## Claim theorems -/

/-- C1 (counterexample): the claim "toCents returns round(v * 100) when v is
a non-integer number" fails at v = 100000.5: the `n > 100000` branch of
`toCentsMaybe` fires first, so the code returns `Math.round(100000.5) =
100001` instead of `round(100000.5 * 100) = 10000050`. -/
theorem toCents_claim_counterexample :
    toCentsMaybe (.num (200001 / 2)) = some 100001 ∧
    jsRound ((200001 / 2 : ℚ) * 100) = 10000050 ∧
    (100001 : ℤ) ≠ 10000050 := by
  refine ⟨?_, ?_, by decide⟩
  · simp only [toCentsMaybe]
    rw [if_pos (show (100000 : ℚ) < 200001 / 2 by norm_num)]
    norm_num [jsRound]
  · norm_num [jsRound]

/-- C1 (amended): `toCentsMaybe` returns `round(v)` (so `v` itself when `v`
is an integer) for every numeric `v` exceeding 100 000; `round(v * 100)` for
a non-integer not exceeding 100 000; and `v * 100` for an integer not
exceeding 100 000; in particular 98695.57 converts to 9869557. -/
theorem toCents_characterization :
    (∀ q : ℚ, q.den = 1 → (100000 : ℚ) < q → toCentsMaybe (.num q) = some q.num) ∧
    (∀ q : ℚ, (100000 : ℚ) < q → toCentsMaybe (.num q) = some (jsRound q)) ∧
    (∀ q : ℚ, q.den ≠ 1 → q ≤ 100000 → toCentsMaybe (.num q) = some (jsRound (q * 100))) ∧
    (∀ q : ℚ, q.den = 1 → q ≤ 100000 → toCentsMaybe (.num q) = some (q.num * 100)) ∧
    toCentsMaybe (.num (9869557 / 100)) = some 9869557 := by
  have hconc : toCentsMaybe (.num (9869557 / 100)) = some 9869557 := by
    simp only [toCentsMaybe]
    rw [if_neg (show ¬ (100000 : ℚ) < 9869557 / 100 by norm_num),
      if_pos (show ((9869557 : ℚ) / 100).den ≠ 1 by norm_num)]
    norm_num [jsRound]
  refine ⟨?_, ?_, ?_, ?_, hconc⟩
  · intro q hden hlt
    simp [toCentsMaybe, hlt, jsRound_of_den_one q hden]
  · intro q hlt
    simp [toCentsMaybe, hlt]
  · intro q hden hle
    have hlt : ¬ (100000 : ℚ) < q := not_lt.mpr hle
    simp [toCentsMaybe, hlt, hden]
  · intro q hden hle
    have hlt : ¬ (100000 : ℚ) < q := not_lt.mpr hle
    simp [toCentsMaybe, hlt, hden]

/-- C1 (witness): the four conditional clauses of `toCents_characterization`
instantiated at 200000, 100000.5, 1.5 and 5. -/
theorem toCents_characterization_witness :
    toCentsMaybe (.num 200000) = some ((200000 : ℚ).num) ∧
    toCentsMaybe (.num (200001 / 2)) = some (jsRound (200001 / 2 : ℚ)) ∧
    toCentsMaybe (.num (3 / 2)) = some (jsRound ((3 / 2 : ℚ) * 100)) ∧
    toCentsMaybe (.num 5) = some ((5 : ℚ).num * 100) :=
  ⟨toCents_characterization.1 200000 (by norm_num) (by norm_num),
   toCents_characterization.2.1 (200001 / 2) (by norm_num),
   toCents_characterization.2.2.1 (3 / 2) (by norm_num) (by norm_num),
   toCents_characterization.2.2.2.1 5 (by norm_num) (by norm_num)⟩

/-- C2: for every rate-limited class configuration, (a) one `isWithinLimit`
call preserves `count ≤ maxEvents`; (b) once the window has expired
(`resetTime < now`) the call behaves exactly as on the reset tracker
`{ count := 0, resetTime := now + interval }`, i.e. the count is reset to 0
before the admission is decided; (c) over any sequence of calls that stays
inside one window (no instant past `resetTime`), the number of admissions
plus the initial count never exceeds `maxEvents`. -/
theorem rateLimit_window_invariant :
    (∀ (cfg : RateCfg) (now : ℕ) (t : Tracker), t.count ≤ cfg.maxEvents →
      ((isWithinLimit cfg now t).2).count ≤ cfg.maxEvents) ∧
    (∀ (cfg : RateCfg) (now : ℕ) (t : Tracker), t.resetTime < now →
      isWithinLimit cfg now t = isWithinLimit cfg now ⟨0, now + cfg.interval⟩) ∧
    (∀ (cfg : RateCfg) (t : Tracker) (times : List ℕ), t.count ≤ cfg.maxEvents →
      (∀ x ∈ times, x ≤ t.resetTime) →
      admittedCount cfg t times + t.count ≤ cfg.maxEvents) := by
  refine ⟨?_, ?_, ?_⟩
  · intro cfg now t hmax
    by_cases hreset : t.resetTime < now
    · by_cases hc : 0 < cfg.maxEvents
      · have hstep : isWithinLimit cfg now t = (true, ⟨1, now + cfg.interval⟩) := by
          simp [isWithinLimit, hreset, hc]
        rw [hstep]
        exact hc
      · have hstep : isWithinLimit cfg now t = (false, ⟨0, now + cfg.interval⟩) := by
          simp [isWithinLimit, hreset, hc]
        rw [hstep]
        exact Nat.zero_le _
    · by_cases hc : t.count < cfg.maxEvents
      · have hstep : isWithinLimit cfg now t = (true, ⟨t.count + 1, t.resetTime⟩) := by
          simp [isWithinLimit, hreset, hc]
        rw [hstep]
        exact hc
      · have hstep : isWithinLimit cfg now t = (false, t) := by
          simp [isWithinLimit, hreset, hc]
        rw [hstep]
        exact hmax
  · intro cfg now t hreset
    unfold isWithinLimit
    have hnoreset : ¬ (Tracker.mk 0 (now + cfg.interval)).resetTime < now := by
      simp
    simp [hreset, hnoreset]
  · intro cfg t times hmax htimes
    exact admittedCount_no_reset cfg times t hmax htimes

/-- C2 (witness): the three clauses of `rateLimit_window_invariant`
instantiated with the `candles-generated` configuration `{ 400, 4 }`. -/
theorem rateLimit_window_invariant_witness :
    ((isWithinLimit rateLimitCandles 10 ⟨2, 400⟩).2).count ≤ rateLimitCandles.maxEvents ∧
    isWithinLimit rateLimitCandles 500 ⟨3, 400⟩ =
      isWithinLimit rateLimitCandles 500 ⟨0, 500 + rateLimitCandles.interval⟩ ∧
    admittedCount rateLimitCandles ⟨0, 400⟩ [1, 2, 3, 4, 5, 6] + (⟨0, 400⟩ : Tracker).count ≤
      rateLimitCandles.maxEvents :=
  ⟨rateLimit_window_invariant.1 rateLimitCandles 10 ⟨2, 400⟩ (by decide),
   rateLimit_window_invariant.2.1 rateLimitCandles 500 ⟨3, 400⟩ (by decide),
   rateLimit_window_invariant.2.2 rateLimitCandles ⟨0, 400⟩ [1, 2, 3, 4, 5, 6]
     (by decide) (by decide)⟩

/-- C3: for a time-ordered sequence of admissions of one coalesced class that
all fall within one flush interval (the last arrives before the first
deadline), the per-class timer fires exactly once and the single emission
carries the last admitted payload. -/
theorem coalesce_last_payload {α : Type} (delay : ℕ) :
    ∀ (l : List (ℕ × α)) (a : ℕ × α),
      List.Chain' (fun x y => x.1 ≤ y.1) (a :: l) →
      (lastD a l).1 < a.1 + delay →
      emissions delay (a :: l) = [((lastD a l).1 + delay, (lastD a l).2)] := by
  intro l
  induction l with
  | nil =>
      intro a _ _
      simp [emissions, lastD]
  | cons b l ih =>
      intro a hchain hwin
      rw [List.chain'_cons] at hchain
      have hab : a.1 ≤ b.1 := hchain.1
      have hlast : b.1 ≤ (lastD b l).1 := fst_le_lastD l b hchain.2
      have hlastA : lastD a (b :: l) = lastD b l := rfl
      rw [hlastA] at hwin ⊢
      have hb : b.1 < a.1 + delay := by omega
      have hstep : emissions delay (a :: b :: l) = emissions delay (b :: l) := by
        obtain ⟨t, p⟩ := a
        obtain ⟨t2, p2⟩ := b
        simp only [emissions]
        rw [if_pos hb]
      rw [hstep]
      exact ih b hchain.2 (by omega)

/-- C3 (witness): three admissions at 0, 50 and 80 ms with payloads 1, 2, 3
all inside one 100 ms flush interval produce the single emission `(180, 3)`. -/
theorem coalesce_last_payload_witness :
    emissions FLUSH_DELAY_MS [(0, 1), (50, 2), (80, 3)] = [(180, 3)] :=
  coalesce_last_payload FLUSH_DELAY_MS [(50, 2), (80, 3)] (0, 1)
    (by simp [List.chain'_cons]) (by decide)

end BullexProxy

namespace BullexProxy

/-- C4 (counterexample): at upstream amount -1 the balances branch forwards
the negative amount -100 cents, and the three emitted payloads are not
identical: `balance-changed` carries an extra top-level `name` field and
`current-balance` an extra `timestamp`. -/
theorem balanceTrio_counterexample :
    balancesBranch (.num (-1)) (some "b1") "USD" 5 =
      [("balance", mkBalanceEvt (some "b1") (-100) "USD"),
       ("balance-changed", mkBalanceChangedEvt (some "b1") (-100) "USD"),
       ("current-balance", mkCurrentBalanceEvt 5 (some "b1") (-100) "USD")] ∧
    mkBalanceEvt (some "b1") (-100) "USD" ≠ mkBalanceChangedEvt (some "b1") (-100) "USD" ∧
    mkBalanceEvt (some "b1") (-100) "USD" ≠ mkCurrentBalanceEvt 5 (some "b1") (-100) "USD" ∧
    (mkBalanceEvt (some "b1") (-100) "USD").current_balance.amount < 0 := by
  have h : toCentsMaybe (.num (-1)) = some (-100) := by
    simp only [toCentsMaybe]
    rw [if_neg (show ¬ (100000 : ℚ) < -1 by norm_num),
      if_neg (show ¬ ((-1 : ℚ)).den ≠ 1 by norm_num)]
    norm_num
  refine ⟨?_, by decide, by decide, by decide⟩
  unfold balancesBranch
  rw [h]

/-- C4 (amended): for every forwarded balance the three events `balance`,
`balance-changed` and `current-balance` carry the same `current_balance`
core (the same id, the same integer amount in cents — not necessarily
non-negative — and the same currency); they are not fully identical
payloads: `balance-changed` additionally carries the top-level `name` field
and `current-balance` additionally carries a `timestamp`. -/
theorem balanceTrio_normalized :
    ∀ (amt : UpAmount) (c : ℤ) (ubid : Option String) (cur : String) (nowMs : ℕ),
      toCentsMaybe amt = some c →
      (balancesBranch amt ubid cur nowMs).map Prod.fst =
        ["balance", "balance-changed", "current-balance"] ∧
      (balancesBranch amt ubid cur nowMs).map (fun e => e.2.current_balance.amount) =
        [c, c, c] ∧
      (balancesBranch amt ubid cur nowMs).map (fun e => e.2.current_balance.id) =
        [ubid, ubid, ubid] ∧
      (balancesBranch amt ubid cur nowMs).map (fun e => e.2.current_balance.currency) =
        [cur, cur, cur] ∧
      (balancesBranch amt ubid cur nowMs).map (fun e => e.2.name) =
        [none, some "balance-changed", none] ∧
      (balancesBranch amt ubid cur nowMs).map (fun e => e.2.current_balance.timestamp) =
        [none, none, some nowMs] := by
  intro amt c ubid cur nowMs h
  have hb : balancesBranch amt ubid cur nowMs =
      [("balance", mkBalanceEvt ubid c cur),
       ("balance-changed", mkBalanceChangedEvt ubid c cur),
       ("current-balance", mkCurrentBalanceEvt nowMs ubid c cur)] := by
    unfold balancesBranch
    rw [h]
  rw [hb]
  simp [mkBalanceEvt, mkBalanceChangedEvt, mkCurrentBalanceEvt]

/-- C4 (witness): `balanceTrio_normalized` applied at upstream amount 2
(i.e. 200 cents), balance id "b7" and timestamp 42. -/
theorem balanceTrio_normalized_witness :
    toCentsMaybe (.num 2) = some 200 ∧
    (balancesBranch (.num 2) (some "b7") "USD" 42).map
      (fun e => e.2.current_balance.amount) = [200, 200, 200] ∧
    (balancesBranch (.num 2) (some "b7") "USD" 42).map (fun e => e.2.name) =
      [none, some "balance-changed", none] :=
  ⟨by decide,
   (balanceTrio_normalized (.num 2) 200 (some "b7") "USD" 42 (by decide)).2.1,
   (balanceTrio_normalized (.num 2) 200 (some "b7") "USD" 42 (by decide)).2.2.2.2.1⟩

/-- C5 (counterexample): an `/open` request with direction `"up"` (not call
or put) and stake 0 still passes validation and is transmitted upstream:
the handler only checks the connection, `user_balance_id` and `active_id`. -/
theorem openValidation_counterexample :
    isOkB (openHandler badOrderReq) = true ∧
    badOrderReq.direction ≠ "call" ∧
    badOrderReq.direction ≠ "put" ∧
    ¬ 0 < badOrderReq.stake := by
  refine ⟨rfl, by decide, by decide, ?_⟩
  show ¬ (0 : ℚ) < badOrderReq.stake
  norm_num [badOrderReq]

/-- C5 (amended): the `/open` handler validates exactly three conditions
before transmission — a found and open upstream connection, a present cached
`user_balance_id`, and a truthy resolvable `active_id`
(`activeId || currentActive`); `direction` and `stake` are never validated. -/
theorem openValidation_characterization :
    ∀ r : OpenReq,
      isOkB (openHandler r) = true ↔
        (r.connFound = true ∧ r.wsOpen = true ∧ r.user_balance_id ≠ none ∧
         jsOrZ r.activeId (jsOrZ r.currentActive none) ≠ none) := by
  intro r
  by_cases h1 : r.connFound = true ∧ r.wsOpen = true
  · cases hub : r.user_balance_id with
    | none =>
        have hh : openHandler r = .error "user_balance_id ausente (aguarde balances)" := by
          unfold openHandler
          rw [if_neg (not_not_intro h1), hub]
        rw [hh]
        simp [isOkB, hub]
    | some u =>
        cases ha : jsOrZ r.activeId (jsOrZ r.currentActive none) with
        | none =>
            have hh : openHandler r =
                .error "active_id ausente (especifique activeId ou subscribe-active antes)" := by
              unfold openHandler
              rw [if_neg (not_not_intro h1), hub]
              show (match (openBuild u r).active_id with
                | none => Except.error
                    "active_id ausente (especifique activeId ou subscribe-active antes)"
                | some _ => Except.ok (openBuild u r)) = _
              rw [show (openBuild u r).active_id =
                jsOrZ r.activeId (jsOrZ r.currentActive none) from rfl, ha]
            rw [hh]
            simp [isOkB, ha]
        | some a =>
            have hh : openHandler r = .ok (openBuild u r) := by
              unfold openHandler
              rw [if_neg (not_not_intro h1), hub]
              show (match (openBuild u r).active_id with
                | none => Except.error
                    "active_id ausente (especifique activeId ou subscribe-active antes)"
                | some _ => Except.ok (openBuild u r)) = _
              rw [show (openBuild u r).active_id =
                jsOrZ r.activeId (jsOrZ r.currentActive none) from rfl, ha]
            rw [hh]
            simp [isOkB, h1.1, h1.2, hub, ha]
  · have hh : openHandler r = .error "Conexão Bullex não encontrada/aberta" := by
      unfold openHandler
      rw [if_pos h1]
    rw [hh]
    simp only [isOkB]
    constructor
    · intro hfalse
      exact absurd hfalse (by simp)
    · intro hr
      exact absurd ⟨hr.1, hr.2.1⟩ h1

/-- C6: the reconnect-attempt counter is a local of each `connectToBullEx`
invocation and every scheduled reconnect re-enters that function, so each
upstream closure is handled with a fresh counter 0 and the `< 6` guard never
trips: after 7 consecutive closures 7 reconnects have been scheduled — a
seventh attempt does occur, contradicting the claimed bound of six. -/
theorem reconnect_unbounded :
    reconnectsAfterCloses 7 = 7 ∧ ¬ reconnectsAfterCloses 7 ≤ 6 := by decide

end BullexProxy

namespace BullexProxy

/-- C7 (counterexample): the M1 order request at Unix time 1700000017 with
stake 1.5 is accepted and transmitted by `/open`, but the transmitted frame
carries no `request_id` at all, refuting the "fresh unique request_id"
part of the claim. -/
theorem orderM1_counterexample :
    openHandler m1Req = .ok (openBuild "b1" m1Req) ∧
    (openBuild "b1" m1Req).request_id = none := by
  exact ⟨rfl, rfl⟩

/-- C7 (amended): building an M1 order at Unix time `now` with stake `s`
yields `option_type_id = 3`, `expired = ceil(now / 60) * 60` and
`value = round(s * 100)`; concretely at `now = 1700000017` and `s = 1.5`
this gives `expired = 1700000040` and `value = 150` — but the `/open` frame
carries no `request_id`. -/
theorem orderM1_alignment :
    (∀ (u : String) (r : OpenReq), r.timeframe = "M1" →
      (openBuild u r).option_type_id = 3 ∧
      (openBuild u r).expired = ((r.now + 59) / 60) * 60 ∧
      (openBuild u r).value = jsRound (r.stake * 100)) ∧
    (openBuild "b1" m1Req).option_type_id = 3 ∧
    (openBuild "b1" m1Req).expired = 1700000040 ∧
    (openBuild "b1" m1Req).value = 150 := by
  refine ⟨?_, rfl, ?_, ?_⟩
  · intro u r h
    refine ⟨?_, ?_, rfl⟩
    · simp [openBuild, timeframeParams, h]
    · simp [openBuild, timeframeParams, h]
  · show ((m1Req.now + 59) / 60) * 60 = 1700000040
    decide
  · show jsRound (m1Req.stake * 100) = 150
    norm_num [m1Req, jsRound]

/-- C7 (witness): `orderM1_alignment` applied to the concrete M1 request
`m1Req` (which satisfies the `timeframe = "M1"` hypothesis). -/
theorem orderM1_alignment_witness :
    m1Req.timeframe = "M1" ∧
    ((openBuild "b1" m1Req).option_type_id = 3 ∧
     (openBuild "b1" m1Req).expired = ((m1Req.now + 59) / 60) * 60 ∧
     (openBuild "b1" m1Req).value = jsRound (m1Req.stake * 100)) :=
  ⟨rfl, orderM1_alignment.1 "b1" m1Req rfl⟩

/-- C8: for every non-empty asset name missing from `ACTIVE_MAP`, the
`subscribe-active` handler emits only the downstream error
`Ativo desconhecido: <name>` and transmits no upstream frame at all (in
particular no `subscribe-candles`). -/
theorem unknownAsset_error :
    ∀ (nm : String) (curr : Option ℕ) (tf : String), nm ≠ "" →
      ACTIVE_MAP.lookup nm = none →
      subscribeActive (some nm) curr tf =
        ([], [.errorEvt ("Ativo desconhecido: " ++ nm)]) := by
  intro nm curr tf h1 h2
  simp only [subscribeActive]
  rw [if_neg h1, h2]

/-- C8 (witness): `unknownAsset_error` applied to the unmapped name
"ZZZ-OTC" while active 76 is subscribed. -/
theorem unknownAsset_error_witness :
    ("ZZZ-OTC" : String) ≠ "" ∧
    ACTIVE_MAP.lookup "ZZZ-OTC" = none ∧
    subscribeActive (some "ZZZ-OTC") (some 76) "1m" =
      ([], [.errorEvt ("Ativo desconhecido: " ++ "ZZZ-OTC")]) :=
  ⟨by decide, by decide,
   unknownAsset_error "ZZZ-OTC" (some 76) "1m" (by decide) (by decide)⟩

/-- C9: an upstream balance frame without a usable numeric amount (missing,
null, or non-numeric) makes `toCentsMaybe` return `null`, and the balances
branch then emits nothing downstream — no balance trio and no error. -/
theorem droppedBalance_silent :
    (toCentsMaybe .missing = none ∧ toCentsMaybe .null = none ∧
      toCentsMaybe .nan = none) ∧
    (∀ (amt : UpAmount) (ubid : Option String) (cur : String) (nowMs : ℕ),
      toCentsMaybe amt = none → balancesBranch amt ubid cur nowMs = []) := by
  refine ⟨⟨rfl, rfl, rfl⟩, ?_⟩
  intro amt ubid cur nowMs h
  unfold balancesBranch
  rw [h]

/-- C9 (witness): `droppedBalance_silent` applied at a non-numeric upstream
amount. -/
theorem droppedBalance_silent_witness :
    toCentsMaybe .nan = none ∧ balancesBranch .nan (some "b1") "USD" 7 = [] :=
  ⟨rfl, droppedBalance_silent.2 .nan (some "b1") "USD" 7 rfl⟩

/-- C10 (counterexample): an object payload whose `name` field is the empty
string — a string, but JavaScript-falsy — together with a nested `msg.name`
resolves to the nested name, not the outer one: the claim fails for this
object which "carries both a string name field and a nested msg.name". -/
theorem resolveOuterName_counterexample :
    envelopeEmptyName.name = some (.s "") ∧
    envelopeEmptyName.msgName = some (.s "EURUSD-OTC") ∧
    resolveActivePayload (.obj envelopeEmptyName) = some (.name "EURUSD-OTC") ∧
    Resolved.name "EURUSD-OTC" ≠ Resolved.name "" := by
  exact ⟨rfl, rfl, rfl, by decide⟩

/-- C10 (amended): for every object payload whose `name` field is a
non-empty (truthy) string, `resolveActivePayload` returns that outer name,
regardless of any nested `msg.name` — the outer key is checked first. -/
theorem resolveOuterName_precedence :
    ∀ (o : JObj) (v : String), o.name = some (.s v) → v ≠ "" →
      resolveActivePayload (.obj o) = some (.name v) := by
  intro o v h hv
  simp only [resolveActivePayload]
  rw [h]
  simp [hv]

/-- C10 (witness): `resolveOuterName_precedence` applied to the full command
envelope `{ name: "subscribe-active", msg: { name: "EURUSD-OTC" } }`, which
resolves to the outer string "subscribe-active". -/
theorem resolveOuterName_precedence_witness :
    envelopeFull.name = some (.s "subscribe-active") ∧
    ("subscribe-active" : String) ≠ "" ∧
    resolveActivePayload (.obj envelopeFull) = some (.name "subscribe-active") :=
  ⟨rfl, by decide,
   resolveOuterName_precedence envelopeFull "subscribe-active" rfl (by decide)⟩

end BullexProxy
